import Mathlib

/-!
Verification of the asynchronous download job pipeline of the
curridata_server repository (src/main.py), against its natural-language
specification.

The embedding translates the job pipeline into pure Lean definitions:

* the job row written to the YT_DOWNLOAD_JOBS table becomes `JobRow`;
* the yt-dlp progress hook (main.py, `hook` inside
  `download_and_update_db`) becomes `hookWrite` on a `HookDict` record
  modelling the dictionary the fetcher passes to the hook;
* the runner body of `download_and_update_db` is modelled through the
  sequence of database writes it performs (`processingWrites`,
  `runnerFailTrace`) and through its exception handler (`exceptBlock`),
  with the scratch directory tracked as a boolean in `RunnerState`;
* the HTTP endpoints `submit_download_job` and `download_file` become
  `submitJob` and `downloadFile`, returning explicit results in place of
  HTTP responses (status codes as natural numbers);
* the `FinalCleanUpFileResponse.__call__` cleanup block becomes
  `finalCleanUp` on a directory modelled as its list of file names.

Database timestamps (GETDATE) are modelled as booleans recording whether
the column has been set; byte counts use exact natural arithmetic, with
Python int() truncation on non-negative values rendered as Nat floor
division.
-/

/-- Job status values stored in YT_DOWNLOAD_JOBS.status
(main.py, table creation comment: PENDING, PROCESSING, COMPLETED, FAILED). -/
inductive Status where
  | PENDING
  | PROCESSING
  | COMPLETED
  | FAILED
deriving DecidableEq, Repr

/-- The fields of one YT_DOWNLOAD_JOBS row that the pipeline reads and
writes.  `finalFilepath = some "ERROR"` is the failure sentinel written by
the runner; `none` models SQL NULL.  The immutable audit columns
(job_id, client_ip, url, format, created_at) are not modelled because no
claim depends on them. -/
structure JobRow where
  status : Status
  progress : Nat
  finalFilepath : Option String
  startTimeSet : Bool
  endTimeSet : Bool
deriving DecidableEq, Repr

/-- The status strings yt-dlp passes to a progress hook
(d.status in main.py `hook`): downloading, finished, error, or anything
else. -/
inductive FetchPhase where
  | downloading
  | finished
  | error
  | other
deriving DecidableEq, Repr

/-- The progress dictionary the media fetcher passes to the hook.
`totalBytes`/`downloadedBytes` are `none` when the key is absent;
the code reads downloaded bytes with a default of 0. -/
structure HookDict where
  phase : FetchPhase
  totalBytes : Option Nat
  downloadedBytes : Option Nat
deriving DecidableEq, Repr

/-- status_map in `hook` (main.py lines 186-191): downloading and
finished map to PROCESSING, error maps to FAILED, anything else defaults
to PROCESSING. -/
def statusMap : FetchPhase → Status
  | .downloading => .PROCESSING
  | .finished => .PROCESSING
  | .error => .FAILED
  | .other => .PROCESSING

/-- Truthiness of d.get applied to total_bytes in Python: the key is
present and its value is nonzero. -/
def totalBytesTruthy (d : HookDict) : Bool :=
  match d.totalBytes with
  | some n => n != 0
  | none => false

/-- The (status, progress) pair the hook writes to the job row on one
invocation (main.py `hook`, lines 184-209).  Branch order follows the
source: the total_bytes branch is tested before the finished branch. -/
def hookWrite (d : HookDict) : Status × Nat :=
  let currentStatus := statusMap d.phase
  let progressPercent :=
    if currentStatus = Status.PROCESSING then
      if totalBytesTruthy d then
        (d.downloadedBytes.getD 0) * 90 / (d.totalBytes.getD 1)
      else if d.phase = FetchPhase.finished then 95
      else 10
    else 0
  (currentStatus, progressPercent)

/-- The initial insert performed by submit_download_job
(main.py line 326): status PENDING, progress 0. -/
def insertWrite : Status × Nat := (Status.PENDING, 0)

/-- The first runner write (main.py line 217): status PROCESSING,
progress 10, start_time set. -/
def startWrite : Status × Nat := (Status.PROCESSING, 10)

/-- The success terminal write (main.py lines 293-296): status COMPLETED,
progress 100. -/
def completedWrite : Status × Nat := (Status.COMPLETED, 100)

/-- The failure terminal write (main.py lines 302-305): status FAILED,
progress 0. -/
def failedWrite : Status × Nat := (Status.FAILED, 0)

/-- The sequence of (status, progress) pairs written to the job store
from the moment the runner starts until the fetch call returns: the
line-217 start write followed by one hook write per callback
invocation. -/
def processingWrites (hooks : List HookDict) : List (Status × Nat) :=
  startWrite :: hooks.map hookWrite

/-- One database write performed by the runner, tagged with its origin
in the source. -/
inductive RunnerWrite where
  | start
  | fromHook (s : Status) (p : Nat)
  | completed (path : String)
  | failedTerminal
deriving DecidableEq, Repr

/-- The full write trace of `download_and_update_db` on a run whose
fetch step raises: the start write, the hook writes made before the
exception, then the single terminal FAILED write from the except block
(main.py lines 215-310). -/
def runnerFailTrace (hooks : List HookDict) : List RunnerWrite :=
  RunnerWrite.start ::
    hooks.map (fun d => RunnerWrite.fromHook (hookWrite d).1 (hookWrite d).2)
    ++ [RunnerWrite.failedTerminal]

/-- Whether a runner write is a FAILED-setting write issued from inside
the progress hook. -/
def isHookFailedWrite : RunnerWrite → Bool
  | .fromHook Status.FAILED _ => true
  | _ => false

/-- The runner state visible to the exception handler: the job row and
whether the scratch directory created by tempfile.mkdtemp still
exists. -/
structure RunnerState where
  row : JobRow
  dirExists : Bool
deriving DecidableEq, Repr

/-- Effect of the terminal FAILED update on the row
(main.py lines 302-305): status FAILED, progress 0, end_time set,
final_filepath set to the ERROR sentinel. -/
def applyFailedWrite (r : JobRow) : JobRow :=
  { r with status := Status.FAILED, progress := 0,
           finalFilepath := some "ERROR", endTimeSet := true }

/-- The except block of `download_and_update_db` (main.py lines
299-310).  `terminalWriteOk` says whether the execute_query call for the
terminal write succeeds.  Returns the resulting state and whether an
exception escapes the runner.  When the terminal write succeeds the
block then removes the scratch directory (shutil.rmtree, guarded by an
existence check); when the write itself raises, the raise propagates out
of the except block before the rmtree line runs. -/
def exceptBlock (terminalWriteOk : Bool) (s : RunnerState) :
    RunnerState × Bool :=
  match terminalWriteOk with
  | true => ({ row := applyFailedWrite s.row, dirExists := false }, false)
  | false => (s, true)

/-- The format validation of DownloadRequest (main.py line 114):
format must be the literal mp3 or mp4. -/
def validFormat (f : String) : Bool := f = "mp3" || f = "mp4"

/-- Outcome of a submission request as seen by the client. -/
inductive SubmitResult where
  | validationError
  | serverError
  | accepted (jobId : String)
deriving DecidableEq, Repr

/-- Side effects of a submission: the row inserted (if any) and whether
the background runner task was scheduled. -/
structure SubmitEffects where
  insertedRow : Option JobRow
  runnerScheduled : Bool
deriving DecidableEq, Repr

/-- The row inserted for an accepted submission (main.py lines 325-330):
status PENDING, progress 0, the path and timestamp columns NULL. -/
def pendingRow : JobRow :=
  { status := Status.PENDING, progress := 0, finalFilepath := none,
    startTimeSet := false, endTimeSet := false }

/-- submit_download_job (main.py lines 315-337).  Pydantic rejects a
format outside mp3/mp4 before the handler runs, so no state is created;
otherwise the handler inserts the PENDING row and, only if the insert
succeeded, schedules the runner and returns the job id; a DatabaseError
from the insert is mapped to a 500 response with nothing inserted (the
helper rolls the transaction back) and no task scheduled. -/
def submitJob (fmt jobId : String) (insertOk : Bool) :
    SubmitResult × SubmitEffects :=
  if validFormat fmt then
    match insertOk with
    | true => (SubmitResult.accepted jobId, ⟨some pendingRow, true⟩)
    | false => (SubmitResult.serverError, ⟨none, false⟩)
  else (SubmitResult.validationError, ⟨none, false⟩)

/-- download_file (main.py lines 366-420).  `fileExists` models
os.path.exists.  Returns the error status code, or the path streamed on
success.  Branch order follows the source: unknown job gives 404, a
status other than COMPLETED gives 400, a falsy or sentinel path gives
404, a missing file gives 404. -/
def downloadFile (job : Option JobRow) (fileExists : String → Bool) :
    Except Nat String :=
  match job with
  | none => Except.error 404
  | some row =>
      if row.status ≠ Status.COMPLETED then Except.error 400
      else
        let filePath := row.finalFilepath.getD ""
        if filePath = "" ∨ filePath = "ERROR" then Except.error 404
        else if fileExists filePath then Except.ok filePath
        else Except.error 404

/-- The finally block of FinalCleanUpFileResponse.__call__
(main.py lines 32-54), run whether the byte stream succeeded or aborted
(`streamAborted` is therefore unused by the body).  The directory is its
list of file names; the served file is removed if present, then rmdir is
attempted unless the directory is the filesystem root, and the OSError
rmdir raises on a non-empty directory is swallowed.  Returns `none` when
the directory was removed, otherwise the remaining contents. -/
def finalCleanUp (streamAborted : Bool) (dirPath : String)
    (contents : List String) (served : String) : Option (List String) :=
  let _ := streamAborted
  let remaining := contents.erase served
  if dirPath = "/" then some remaining
  else if remaining.isEmpty then none
  else some remaining

/-- A row as left by the failure terminal write: used as the concrete
FAILED job in counterexamples. -/
def failedRow : JobRow :=
  { status := Status.FAILED, progress := 0, finalFilepath := some "ERROR",
    startTimeSet := true, endTimeSet := true }

/-- The invariant claimed for every job-store write: progress is 100
exactly on COMPLETED, and a FAILED write carries progress 0. -/
def writeInv (w : Status × Nat) : Prop :=
  (w.2 = 100 ↔ w.1 = Status.COMPLETED) ∧
  (w.1 = Status.FAILED → w.2 = 0)

instance (w : Status × Nat) : Decidable (writeInv w) := by
  unfold writeInv; infer_instance

/-- C1 counterexample: for a job in status FAILED (with the ERROR
sentinel path, as the failure terminal write leaves it), the retrieval
endpoint returns status 400, not the 404 the claim states: the
COMPLETED check fires before the sentinel-path check. -/
theorem c1_failed_retrieval_gives_400_not_404 :
    downloadFile (some failedRow) (fun _ => false) = Except.error 400 ∧
    downloadFile (some failedRow) (fun _ => false) ≠ Except.error 404 := by
  constructor
  · rfl
  · intro h
    simp [downloadFile, failedRow] at h

/-- C1 amended: for every job whose status is FAILED, the retrieval
endpoint returns a not-ready 400 response, whatever the filesystem
state; the endpoint performs no state change on this path, so every
repeated call returns 400 as well. -/
theorem c1_failed_retrieval_always_400 (row : JobRow)
    (fileExists : String → Bool) (h : row.status = Status.FAILED) :
    downloadFile (some row) fileExists = Except.error 400 := by
  simp [downloadFile, h]

/-- Witness for the C1 amended theorem at the concrete failure row. -/
theorem c1_failed_retrieval_always_400_witness :
    downloadFile (some failedRow) (fun _ => false) = Except.error 400 :=
  c1_failed_retrieval_always_400 failedRow (fun _ => false) rfl

/-- C2 counterexample: the runner first writes (PROCESSING, 10), then a
downloading callback at the start of a transfer of 1000 bytes writes
(PROCESSING, 0): the progress sequence decreases while status is
PROCESSING. -/
theorem c2_progress_can_decrease_while_processing :
    processingWrites [⟨FetchPhase.downloading, some 1000, some 0⟩] =
      [(Status.PROCESSING, 10), (Status.PROCESSING, 0)] ∧ (0 : Nat) < 10 := by
  constructor
  · rfl
  · decide

/-- C2 amended: progress is non-decreasing only within a single byte
transfer with a fixed known total and non-decreasing downloaded bytes;
across phase boundaries it can decrease (the start write of 10 precedes
a first callback that can write 0). -/
theorem c2_progress_monotone_within_transfer (t a b : Nat)
    (ht : t ≠ 0) (hab : a ≤ b) :
    (hookWrite ⟨FetchPhase.downloading, some t, some a⟩).1 =
        Status.PROCESSING ∧
    (hookWrite ⟨FetchPhase.downloading, some t, some a⟩).2 ≤
      (hookWrite ⟨FetchPhase.downloading, some t, some b⟩).2 := by
  constructor
  · rfl
  · simp only [hookWrite, statusMap, totalBytesTruthy, Option.getD_some]
    have h1 : (t != 0) = true := by simpa using ht
    simp [h1]
    exact Nat.div_le_div_right (Nat.mul_le_mul_right 90 hab)

/-- Witness for the C2 amended theorem on a transfer of 1000 bytes
moving from 200 to 700 downloaded bytes. -/
theorem c2_progress_monotone_within_transfer_witness :
    (hookWrite ⟨FetchPhase.downloading, some 1000, some 200⟩).1 =
        Status.PROCESSING ∧
    (hookWrite ⟨FetchPhase.downloading, some 1000, some 200⟩).2 ≤
      (hookWrite ⟨FetchPhase.downloading, some 1000, some 700⟩).2 :=
  c2_progress_monotone_within_transfer 1000 200 700 (by decide) (by decide)

/-- C3 counterexample: a finished callback that still carries
total_bytes (the usual case: the transfer just ended) writes progress
90, not the claimed 95, because the total_bytes branch is tested before
the finished branch. -/
theorem c3_finished_with_total_writes_90_not_95 :
    hookWrite ⟨FetchPhase.finished, some 1000, some 1000⟩ =
      (Status.PROCESSING, 90) ∧ (90 : Nat) ≠ 95 := by
  constructor
  · rfl
  · decide

/-- C3 amended: when the callback carries a known nonzero total, the
progress written is floor(done * 90 / total) in both the downloading and
the finished phases; the pinned value 95 is written only for a finished
callback without a usable total; a downloading callback without a usable
total writes the default 10. -/
theorem c3_hook_progress_formula (d : HookDict) :
    (∀ t, d.totalBytes = some t → t ≠ 0 →
      (d.phase = FetchPhase.downloading ∨ d.phase = FetchPhase.finished) →
      hookWrite d = (Status.PROCESSING, d.downloadedBytes.getD 0 * 90 / t)) ∧
    (d.phase = FetchPhase.finished → totalBytesTruthy d = false →
      hookWrite d = (Status.PROCESSING, 95)) ∧
    (d.phase = FetchPhase.downloading → totalBytesTruthy d = false →
      hookWrite d = (Status.PROCESSING, 10)) := by
  refine ⟨?_, ?_, ?_⟩
  · intro t hsome ht hphase
    have htr : totalBytesTruthy d = true := by
      simp [totalBytesTruthy, hsome, ht]
    rcases hphase with hp | hp <;>
      simp [hookWrite, statusMap, hp, htr, hsome]
  · intro hp htr
    simp [hookWrite, statusMap, hp, htr]
  · intro hp htr
    simp [hookWrite, statusMap, hp, htr]

/-- Witness for the C3 amended theorem on a finished callback with a
total of 800 bytes fully downloaded, a finished callback with no total,
and a downloading callback with no total. -/
theorem c3_hook_progress_formula_witness :
    hookWrite ⟨FetchPhase.finished, some 800, some 800⟩ =
        (Status.PROCESSING, 800 * 90 / 800) ∧
    hookWrite ⟨FetchPhase.finished, none, some 800⟩ =
        (Status.PROCESSING, 95) ∧
    hookWrite ⟨FetchPhase.downloading, none, some 5⟩ =
        (Status.PROCESSING, 10) :=
  ⟨(c3_hook_progress_formula ⟨FetchPhase.finished, some 800, some 800⟩).1
      800 rfl (by decide) (Or.inr rfl),
   (c3_hook_progress_formula ⟨FetchPhase.finished, none, some 800⟩).2.1
      rfl (by decide),
   (c3_hook_progress_formula ⟨FetchPhase.downloading, none, some 5⟩).2.2
      rfl (by decide)⟩

/-- C4 counterexample: when the fetcher reports phase error, the hook
itself writes status FAILED to the job store, so on a failing run whose
hook saw an error the trace holds a FAILED write issued from inside the
hook, followed by the terminal write: a write after the job was already
FAILED. -/
theorem c4_hook_writes_failed :
    runnerFailTrace [⟨FetchPhase.error, none, none⟩] =
      [RunnerWrite.start, RunnerWrite.fromHook Status.FAILED 0,
       RunnerWrite.failedTerminal] ∧
    isHookFailedWrite (RunnerWrite.fromHook Status.FAILED 0) = true :=
  ⟨rfl, rfl⟩

/-- C4 amended: on a failing run the except-block terminal write is the
last write of the trace and occurs exactly once; but in addition, an
error-phase callback makes the hook itself write (FAILED, 0) earlier in
the trace, so a FAILED-setting write can also come from inside the hook
and the terminal write is not the only write after the job first shows
FAILED. -/
theorem c4_terminal_write_last_and_once (hooks : List HookDict)
    (d : HookDict) (h : d.phase = FetchPhase.error) :
    hookWrite d = (Status.FAILED, 0) ∧
    (runnerFailTrace hooks).getLast? = some RunnerWrite.failedTerminal ∧
    (runnerFailTrace hooks).count RunnerWrite.failedTerminal = 1 := by
  refine ⟨?_, ?_, ?_⟩
  · simp [hookWrite, statusMap, h]
  · show (RunnerWrite.start ::
      (hooks.map fun d => RunnerWrite.fromHook (hookWrite d).1 (hookWrite d).2)
      ++ [RunnerWrite.failedTerminal]).getLast? = some RunnerWrite.failedTerminal
    rw [List.getLast?_append_of_ne_nil _ (by simp)]
    rfl
  · show (RunnerWrite.start ::
      (hooks.map fun d => RunnerWrite.fromHook (hookWrite d).1 (hookWrite d).2)
      ++ [RunnerWrite.failedTerminal]).count RunnerWrite.failedTerminal = 1
    rw [List.count_append]
    have h0 : (RunnerWrite.start ::
        hooks.map fun d =>
          RunnerWrite.fromHook (hookWrite d).1 (hookWrite d).2).count
        RunnerWrite.failedTerminal = 0 := by
      rw [List.count_eq_zero]
      intro hmem
      rcases List.mem_cons.mp hmem with hc | hc
      · exact absurd hc.symm (by simp)
      · obtain ⟨e, _, he⟩ := List.mem_map.mp hc
        exact absurd he (by simp)
    rw [h0]
    rfl

/-- Witness for the C4 amended theorem: a run with a single error-phase
callback before the fetch raises. -/
theorem c4_terminal_write_last_and_once_witness :
    hookWrite ⟨FetchPhase.error, none, none⟩ = (Status.FAILED, 0) ∧
    (runnerFailTrace [⟨FetchPhase.error, none, none⟩]).getLast? =
      some RunnerWrite.failedTerminal ∧
    (runnerFailTrace [⟨FetchPhase.error, none, none⟩]).count
      RunnerWrite.failedTerminal = 1 :=
  c4_terminal_write_last_and_once [⟨FetchPhase.error, none, none⟩]
    ⟨FetchPhase.error, none, none⟩ rfl

/-- C5 counterexample: a downloading callback reporting more downloaded
bytes than the total (10 of 9) makes the hook write progress 100 while
the status written is PROCESSING, breaking the claimed equivalence of
progress 100 with status COMPLETED; nothing in the hook bounds the ratio.
-/
theorem c5_progress_100_while_processing :
    hookWrite ⟨FetchPhase.downloading, some 9, some 10⟩ =
      (Status.PROCESSING, 100) ∧
    Status.PROCESSING ≠ Status.COMPLETED :=
  ⟨rfl, by decide⟩

/-- C5 amended: provided every callback reports downloaded bytes not
exceeding the known total, each write of the pipeline satisfies the
invariant: the insert, the start write, any hook write, and both
terminal writes carry progress 100 exactly when the status is COMPLETED,
and progress 0 whenever the status written is FAILED. -/
theorem c5_writes_preserve_invariant (d : HookDict)
    (hle : ∀ t, d.totalBytes = some t → d.downloadedBytes.getD 0 ≤ t) :
    writeInv insertWrite ∧ writeInv startWrite ∧ writeInv (hookWrite d) ∧
    writeInv completedWrite ∧ writeInv failedWrite := by
  refine ⟨by decide, by decide, ?_, by decide, by decide⟩
  constructor
  · show (hookWrite d).2 = 100 ↔ (hookWrite d).1 = Status.COMPLETED
    constructor
    · intro h100
      exfalso
      rcases hd : d.totalBytes with _ | t
      · rcases hp : d.phase <;>
          simp [hookWrite, statusMap, totalBytesTruthy, hp, hd] at h100
      · have hle' := hle t hd
        by_cases ht : t = 0
        · rcases hp : d.phase <;>
            simp [hookWrite, statusMap, totalBytesTruthy, hp, hd, ht] at h100
        · have hdiv : d.downloadedBytes.getD 0 * 90 / t ≤ 90 := by
            have : d.downloadedBytes.getD 0 * 90 ≤ t * 90 :=
              Nat.mul_le_mul_right 90 hle'
            calc d.downloadedBytes.getD 0 * 90 / t ≤ t * 90 / t :=
                  Nat.div_le_div_right this
              _ = 90 := by
                  rw [Nat.mul_comm, Nat.mul_div_cancel _ (Nat.pos_of_ne_zero ht)]
          rcases hp : d.phase <;>
            simp [hookWrite, statusMap, totalBytesTruthy, hp, hd, ht] at h100 <;>
            omega
    · intro hc
      exfalso
      rcases hp : d.phase <;> simp [hookWrite, statusMap, hp] at hc
  · show (hookWrite d).1 = Status.FAILED → (hookWrite d).2 = 0
    intro hf
    rcases hp : d.phase <;> simp [hookWrite, statusMap, hp] at hf ⊢

/-- Witness for the C5 amended theorem on a downloading callback
reporting 500 of 1000 bytes. -/
theorem c5_writes_preserve_invariant_witness :
    writeInv insertWrite ∧ writeInv startWrite ∧
    writeInv (hookWrite ⟨FetchPhase.downloading, some 1000, some 500⟩) ∧
    writeInv completedWrite ∧ writeInv failedWrite :=
  c5_writes_preserve_invariant ⟨FetchPhase.downloading, some 1000, some 500⟩
    (by intro t ht; simp at ht; subst ht; decide)

/-- C6: on any run whose fetch step raises, when the terminal write
succeeds the except block leaves the row FAILED with progress 0, the
ERROR sentinel path and end_time set, the scratch directory no longer
exists once the block completes, and no exception escapes the runner. -/
theorem c6_failed_write_then_scratch_removed (s : RunnerState) :
    (exceptBlock true s).1.row.status = Status.FAILED ∧
    (exceptBlock true s).1.row.progress = 0 ∧
    (exceptBlock true s).1.row.finalFilepath = some "ERROR" ∧
    (exceptBlock true s).1.row.endTimeSet = true ∧
    (exceptBlock true s).1.dirExists = false ∧
    (exceptBlock true s).2 = false :=
  ⟨rfl, rfl, rfl, rfl, rfl, rfl⟩

/-- C7: a format outside mp3/mp4 is rejected by validation before any
state is created, whatever the persistence layer would have done: no row
is inserted and no runner is scheduled; an accepted request whose insert
succeeds stores a row with status PENDING and progress 0 and returns the
job id with the runner scheduled. -/
theorem c7_validation_gates_submission (fmt jobId : String) :
    (validFormat fmt = false → ∀ insertOk,
      submitJob fmt jobId insertOk =
        (SubmitResult.validationError, ⟨none, false⟩)) ∧
    (validFormat fmt = true →
      submitJob fmt jobId true =
        (SubmitResult.accepted jobId, ⟨some pendingRow, true⟩)) ∧
    pendingRow.status = Status.PENDING ∧ pendingRow.progress = 0 := by
  refine ⟨?_, ?_, rfl, rfl⟩
  · intro hv insertOk
    simp [submitJob, hv]
  · intro hv
    simp [submitJob, hv]

/-- Witness for C7: the format wav is rejected with no effects, the
format mp3 is accepted with the PENDING row inserted. -/
theorem c7_validation_gates_submission_witness :
    submitJob "wav" "job-1" true =
      (SubmitResult.validationError, ⟨none, false⟩) ∧
    submitJob "mp3" "job-2" true =
      (SubmitResult.accepted "job-2", ⟨some pendingRow, true⟩) :=
  ⟨(c7_validation_gates_submission "wav" "job-1").1 (by decide) true,
   (c7_validation_gates_submission "mp3" "job-2").2.1 (by decide)⟩

/-- C8: when the byte stream of a retrieval finishes, aborted or not,
the cleanup removes the served file; the scratch directory (never the
filesystem root) is removed exactly when nothing remains in it, a
non-empty directory is kept with exactly its other files, and a second
retrieval of the same COMPLETED job against the resulting filesystem
returns 404 because the served file no longer exists. -/
theorem c8_cleanup_deletes_file_dir_iff_empty (streamAborted : Bool)
    (dirPath served : String) (contents : List String)
    (hroot : dirPath ≠ "/") (hnd : contents.Nodup) :
    (finalCleanUp streamAborted dirPath contents served = none ↔
      contents.erase served = []) ∧
    (contents.erase served ≠ [] →
      finalCleanUp streamAborted dirPath contents served =
        some (contents.erase served)) ∧
    served ∉ contents.erase served ∧
    downloadFile
      (some { status := Status.COMPLETED, progress := 100,
              finalFilepath := some served, startTimeSet := true,
              endTimeSet := true })
      (fun p => decide (p ∈ contents.erase served)) = Except.error 404 := by
  have hnm : served ∉ contents.erase served := hnd.not_mem_erase
  have hstep : finalCleanUp streamAborted dirPath contents served =
      if (contents.erase served).isEmpty then none
      else some (contents.erase served) := by
    simp only [finalCleanUp]
    rw [if_neg hroot]
  refine ⟨?_, ?_, hnm, ?_⟩
  · rw [hstep]
    by_cases he : (contents.erase served).isEmpty
    · rw [if_pos he]
      simp [List.isEmpty_iff.mp he]
    · rw [if_neg he]
      simp only [List.isEmpty_iff] at he
      constructor
      · intro h
        exact absurd h (by simp)
      · intro hc
        exact absurd hc he
  · intro hne
    rw [hstep, if_neg (by simpa [List.isEmpty_iff] using hne)]
  · by_cases h1 : served = ""
    · simp [downloadFile, h1]
    · by_cases h2 : served = "ERROR"
      · simp [downloadFile, h2]
      · simp [downloadFile, h1, h2, hnm]

/-- Witness for C8: a scratch directory holding the served file and one
sibling; the directory survives with only the sibling, and retrieval
against the cleaned filesystem gives 404. -/
theorem c8_cleanup_deletes_file_dir_iff_empty_witness :
    (finalCleanUp false "/tmp/job1" ["a.mp4", "b.txt"] "a.mp4" = none ↔
      (["a.mp4", "b.txt"] : List String).erase "a.mp4" = []) ∧
    ((["a.mp4", "b.txt"] : List String).erase "a.mp4" ≠ [] →
      finalCleanUp false "/tmp/job1" ["a.mp4", "b.txt"] "a.mp4" =
        some ((["a.mp4", "b.txt"] : List String).erase "a.mp4")) ∧
    "a.mp4" ∉ (["a.mp4", "b.txt"] : List String).erase "a.mp4" ∧
    downloadFile
      (some { status := Status.COMPLETED, progress := 100,
              finalFilepath := some "a.mp4", startTimeSet := true,
              endTimeSet := true })
      (fun p => decide (p ∈ (["a.mp4", "b.txt"] : List String).erase "a.mp4"))
      = Except.error 404 :=
  c8_cleanup_deletes_file_dir_iff_empty false "/tmp/job1" "a.mp4"
    ["a.mp4", "b.txt"] (by decide) (by decide)

/-- C9: when the initial insert of the PENDING row raises a database
error, the submission endpoint reports a server error, no row is stored
(the helper rolls the transaction back) and the background runner is
never scheduled, whatever valid format was requested. -/
theorem c9_insert_failure_aborts_submission (fmt jobId : String)
    (h : validFormat fmt = true) :
    submitJob fmt jobId false = (SubmitResult.serverError, ⟨none, false⟩) := by
  simp [submitJob, h]

/-- Witness for C9 at format mp4. -/
theorem c9_insert_failure_aborts_submission_witness :
    submitJob "mp4" "job-3" false =
      (SubmitResult.serverError, ⟨none, false⟩) :=
  c9_insert_failure_aborts_submission "mp4" "job-3" (by decide)

/-- C10: if the terminal FAILED write itself raises, the except block
re-raises before reaching the rmtree line: the job row is left as it
was, the scratch directory still exists exactly as before, and the
exception escapes the runner. -/
theorem c10_terminal_write_failure_skips_cleanup (s : RunnerState) :
    (exceptBlock false s).1 = s ∧
    (exceptBlock false s).1.dirExists = s.dirExists ∧
    (exceptBlock false s).2 = true :=
  ⟨rfl, rfl, rfl⟩
